import Mathlib

/-!
Shallow embedding of `src/debtclear_webhook.py` (DebtClear webhook server).

Modelling conventions:
* Python `float` money values are modelled as exact rationals (`ℚ`); the source
  performs plain arithmetic on amounts, which we mirror over `ℚ`.
* `datetime` values are modelled by their proleptic-Gregorian day ordinal
  (`date.toordinal`).  `calculate_statutory_claim` reads `datetime.now()`
  internally; the ambient clock value is passed to the embedding as an explicit
  `todayOrd` argument.  Because the parsed due date has time 00:00:00 and
  `datetime.now()` has a nonnegative time-of-day less than one day,
  `(today - due_date).days` equals the difference of the two day ordinals, so a
  day ordinal captures everything the code observes about the clock.
* `datetime.strptime(s, "%Y-%m-%d")` is modelled by `parseYMD`, following
  CPython `_strptime`: `%Y` is exactly four digits, `%m`/`%d` are one or two
  digits constrained to 1..12 / 1..31, the whole string must be consumed, and
  the resulting triple must be a valid calendar date (`datetime` constructor).
  ASCII digits only (CPython's regexes would also admit non-ASCII decimal
  digits, which no claim depends on).
* Exceptions are modelled with `Except`; an uncaught Python exception is an
  `Except.error` value.
-/

deriving instance DecidableEq for Except

namespace DebtClear

/-- A Python exception value relevant to this module: `ValueError` with its
message, as raised by `datetime.strptime` on malformed input. -/
inductive PyError where
  | valueError (msg : String)
deriving DecidableEq

/-- `str.split("-")` over a character list (accumulator holds the current
segment reversed), mirroring how the `%Y-%m-%d` pattern cuts the input at the
literal dashes. -/
def splitDashAux : List Char → List Char → List (List Char)
  | [], acc => [acc.reverse]
  | c :: rest, acc =>
    if c = '-' then acc.reverse :: splitDashAux rest []
    else splitDashAux rest (c :: acc)

/-- Decimal value of a digit string, as Python `int()` on the matched groups. -/
def digitsToNat (l : List Char) : Nat :=
  l.foldl (fun a c => a * 10 + (c.toNat - 48)) 0

/-- Gregorian leap-year rule used by `datetime`. -/
def isLeap (y : Nat) : Bool :=
  (y % 4 == 0 && y % 100 != 0) || y % 400 == 0

/-- Number of days in month `m` of year `y` (`datetime` day validation). -/
def daysInMonth (y m : Nat) : Nat :=
  if m = 2 then (if isLeap y then 29 else 28)
  else if m = 4 ∨ m = 6 ∨ m = 9 ∨ m = 11 then 30
  else 31

/-- `datetime.strptime(s, "%Y-%m-%d")`, returning the `(year, month, day)`
triple or the `ValueError` message CPython raises: a format-mismatch message
when the string does not match the pattern, and the `datetime` constructor
messages when the matched numbers do not form a valid date. -/
def parseYMD (s : String) : Except String (Nat × Nat × Nat) :=
  match splitDashAux s.toList [] with
  | [ys, ms, ds] =>
    if ys.length = 4 ∧ ys.all Char.isDigit
        ∧ 1 ≤ ms.length ∧ ms.length ≤ 2 ∧ ms.all Char.isDigit
        ∧ 1 ≤ ds.length ∧ ds.length ≤ 2 ∧ ds.all Char.isDigit
        ∧ 1 ≤ digitsToNat ms ∧ digitsToNat ms ≤ 12
        ∧ 1 ≤ digitsToNat ds ∧ digitsToNat ds ≤ 31 then
      if digitsToNat ys = 0 then .error "year 0 is out of range"
      else if daysInMonth (digitsToNat ys) (digitsToNat ms) < digitsToNat ds then
        .error "day is out of range for month"
      else .ok (digitsToNat ys, digitsToNat ms, digitsToNat ds)
    else .error ("time data \x27" ++ s ++ "\x27 does not match format \x27%Y-%m-%d\x27")
  | _ => .error ("time data \x27" ++ s ++ "\x27 does not match format \x27%Y-%m-%d\x27")

/-- Days in all years strictly before year `y` (Python `date.toordinal`
helper). -/
def daysBeforeYear (y : Nat) : Nat :=
  365 * (y - 1) + (y - 1) / 4 - (y - 1) / 100 + (y - 1) / 400

/-- Days in year `y` strictly before month `m`. -/
def daysBeforeMonth (y m : Nat) : Nat :=
  [0, 31, 59, 90, 120, 151, 181, 212, 243, 273, 304, 334].getD (m - 1) 0
    + (if 2 < m ∧ isLeap y then 1 else 0)

/-- Python `date(y, m, d).toordinal()`: day 1 is 0001-01-01. -/
def dateOrdinal (y m d : Nat) : Int :=
  ((daysBeforeYear y + daysBeforeMonth y m + d : Nat) : Int)

/-- Python built-in `round` to the nearest integer: ties go to the even
integer (banker's rounding). -/
def pyRound (q : ℚ) : Int :=
  let f : Int := q.num / (q.den : Int)
  if (1 : ℚ) / 2 < q - (f : ℚ) then f + 1
  else if q - (f : ℚ) < (1 : ℚ) / 2 then f
  else if f % 2 = 0 then f else f + 1

/-- `annual_rate = 0.1275` (8% statutory premium + 4.75% BoE base rate). -/
def annual_rate : ℚ := 1275 / 10000

/-- Result dictionary of `calculate_statutory_claim`. -/
structure ClaimResult where
  days_overdue : Nat
  statutory_interest_gbp : ℚ
  compensation_gbp : ℚ
  total_claim_gbp : ℚ
deriving DecidableEq

/-- `calculate_statutory_claim(amount_gbp, due_date_str)` from the source.
`todayOrd` is the day ordinal of the ambient `datetime.now()` read inside the
function (see the module conventions); a `ValueError` escaping `strptime` is
returned as `Except.error`. -/
def calculate_statutory_claim (amount_gbp : ℚ) (due_date_str : String)
    (todayOrd : Int) : Except PyError ClaimResult :=
  match parseYMD due_date_str with
  | .error msg => .error (.valueError msg)
  | .ok (y, m, d) =>
    let days_overdue : Int := max 0 (todayOrd - dateOrdinal y m d)
    let daily_rate : ℚ := annual_rate / 365
    let interest : ℚ :=
      ((pyRound (amount_gbp * daily_rate * (days_overdue : ℚ) * 100) : ℚ)) / 100
    let compensation : ℚ :=
      if amount_gbp < 1000 then 40 else if amount_gbp < 10000 then 70 else 100
    let total_claim : ℚ := amount_gbp + interest + compensation
    .ok { days_overdue := days_overdue.toNat
          statutory_interest_gbp := interest
          compensation_gbp := compensation
          total_claim_gbp := total_claim }

/-- Boolean prefix test on character lists (substring search helper). -/
def hasPre : List Char → List Char → Bool
  | [], _ => true
  | _ :: _, [] => false
  | a :: as, b :: bs => a = b && hasPre as bs

/-- Boolean contiguous-substring test on character lists. -/
def hasSub (pat : List Char) : List Char → Bool
  | [] => pat.isEmpty
  | l@(_ :: rest) => hasPre pat l || hasSub pat rest

/-- Whether `pat` occurs as a contiguous substring of `s`. -/
def strHasSub (s pat : String) : Bool :=
  hasSub pat.toList s.toList

/-- Outcome of the outbound SendGrid HTTP POST, as observed by
`send_email_via_sendgrid`: either a response with a status code, or a raised
transport exception (`requests.post` timeout, connection error, ...). -/
inductive EmailTransport where
  | status (code : Nat)
  | raised
deriving DecidableEq

/-- `send_email_via_sendgrid` from the source: returns `True` exactly on a
200/201/202 response; any other status code returns `False`, and every raised
exception is caught by the `try/except` and converted to `False`.  The
recipient, subject and HTML body do not influence the returned value and are
therefore not parameters of the embedding (the attempted send itself is
recorded as an `Effect` by `handle_intake`). -/
def send_email_via_sendgrid (transport : EmailTransport) : Bool :=
  match transport with
  | .status code => code = 200 ∨ code = 201 ∨ code = 202
  | .raised => false

/-- Externally visible side effects of one intake request: the rendered letter
written by `generate_lba_pdf`, and the outbound email POST. -/
inductive Effect where
  | writeDoc (path : String)
  | sendEmail (to_email : String)
deriving DecidableEq

/-- `IntakeSubmission` request schema (all fields as in the source; money as
exact rationals). -/
structure IntakeSubmission where
  client_email : String
  client_name : String
  client_business : String
  debtor_name : String
  debtor_address : String
  debtor_type : String
  amount_owed_gbp : ℚ
  invoice_date : String
  due_date : String
  description_of_debt : String
  dpa_accepted : Bool
deriving DecidableEq

/-- The JSON object returned by `handle_intake` on success. -/
structure IntakeResponse where
  status : String
  case_id : String
  client_email : String
  amount_owed_gbp : ℚ
  statutory_interest_gbp : ℚ
  compensation_gbp : ℚ
  total_claim_gbp : ℚ
  lba_generated : Bool
  email_sent : Bool
  message : String
deriving DecidableEq

/-- How an intake request fails: an `HTTPException` raised by the handler
(status code and detail), or a Python exception escaping the handler uncaught
(FastAPI turns it into a 500 response with no field detail). -/
inductive HandleError where
  | http (status_code : Nat) (detail : String)
  | unhandled (e : PyError)
deriving DecidableEq

/-- Ambient process state read by `handle_intake` during one request. -/
structure Env where
  /-- Day ordinal of `datetime.now()`. -/
  todayOrd : Int
  /-- `datetime.now().strftime("%Y%m%d")`. -/
  todayStr : String
  /-- `abs(hash(s))` for this Python process (string hashing is randomized
  per process, so it is an ambient, not a constant). -/
  emailHash : String → Nat
  /-- Whether `generate_lba_pdf` completes without raising. -/
  renderOk : Bool
  /-- Outcome of the outbound SendGrid call. -/
  transport : EmailTransport

/-- Python `"%04d" % n`: decimal digits left-padded with zeros to width 4. -/
def format04 (n : Nat) : String :=
  let s := toString n
  if s.length < 4 then String.mk (List.replicate (4 - s.length) '0') ++ s else s

/-- The case-id f-string from `handle_intake`:
`DC-{now:%Y%m%d}-{abs(hash(client_email)) % 10000:04d}`. -/
def generate_case_id (env : Env) (client_email : String) : String :=
  "DC-" ++ env.todayStr ++ "-" ++ format04 (env.emailHash client_email % 10000)

/-- `handle_intake(submission)` from the source, as a function of the ambient
state `env`; returns the handler outcome together with the list of side
effects performed, in order.  A raised `HTTPException` or uncaught exception
produces the `Except.error` and no further effects. -/
def handle_intake (env : Env) (submission : IntakeSubmission) :
    Except HandleError IntakeResponse × List Effect :=
  if submission.debtor_type ≠ "business" then
    (.error (.http 422 "DebtClear processes B2B (business-to-business) debt only. Consumer debt uses a different legal framework."), [])
  else if submission.dpa_accepted = false then
    (.error (.http 422 "Data Processing Agreement must be accepted to proceed."), [])
  else
    let case_id := generate_case_id env submission.client_email
    match calculate_statutory_claim submission.amount_owed_gbp
        submission.due_date env.todayOrd with
    | .error e => (.error (.unhandled e), [])
    | .ok claim_calc =>
      if env.renderOk = false then
        (.error (.http 500 "LBA generation failed"), [])
      else
        let lba_path := "/tmp/debtclear_pdfs/" ++ case_id ++ ".txt"
        let email_sent := send_email_via_sendgrid env.transport
        (.ok { status := "success"
               case_id := case_id
               client_email := submission.client_email
               amount_owed_gbp := submission.amount_owed_gbp
               statutory_interest_gbp := claim_calc.statutory_interest_gbp
               compensation_gbp := claim_calc.compensation_gbp
               total_claim_gbp := claim_calc.total_claim_gbp
               lba_generated := true
               email_sent := email_sent
               message := "Case " ++ case_id
                 ++ " created successfully. LBA prepared and email sent." },
         [.writeDoc lba_path, .sendEmail submission.client_email])

/-- Whether an `Except` value is a success (the handler did not raise). -/
def succeeded : Except ε α → Bool
  | .ok _ => true
  | .error _ => false

/-- Concrete ambient state for witnesses: 2026-01-01, rendering succeeds,
the SendGrid call returns 202. -/
def envA : Env :=
  { todayOrd := 739617
    todayStr := "20260101"
    emailHash := String.length
    renderOk := true
    transport := .status 202 }

/-- Ambient state identical to `envA` except the SendGrid call raises. -/
def envR : Env := { envA with transport := .raised }

/-- Concrete business-to-business submission used by witness theorems. -/
def subBusiness : IntakeSubmission :=
  { client_email := "jane@acme.co.uk"
    client_name := "Jane Smith"
    client_business := "Acme Ltd"
    debtor_name := "Slowpay Ltd"
    debtor_address := "1 High Street, London"
    debtor_type := "business"
    amount_owed_gbp := 2500
    invoice_date := "2024-11-01"
    due_date := "2024-12-01"
    description_of_debt := "Unpaid invoice 1042"
    dpa_accepted := true }

/-- `subBusiness` with a consumer debtor. -/
def subIndividual : IntakeSubmission := { subBusiness with debtor_type := "individual" }

/-- `subBusiness` without data-processing consent. -/
def subNoConsent : IntakeSubmission := { subBusiness with dpa_accepted := false }

/-- A submission distinct from `subBusiness` (different debtor) with the same
client email. -/
def subOtherDebtor : IntakeSubmission := { subBusiness with debtor_name := "Latepay Ltd" }

example : parseYMD "2025-01-01" = .ok (2025, 1, 1) := by decide
example : parseYMD "2025-1-1" = .ok (2025, 1, 1) := by decide
example : parseYMD "2025-02-30" = .error "day is out of range for month" := by decide
example : dateOrdinal 2025 1 1 = 739252 := by decide
example : pyRound (5 / 2) = 2 := by with_unfolding_all decide
example : pyRound (7 / 2) = 4 := by with_unfolding_all decide

/-- Unfolding lemma: on a due date that parses as `(y, m, d)`, the calculator
returns the record computed by the function body. -/
theorem calculate_eq (amount_gbp : ℚ) (s : String) (todayOrd : Int)
    (y m d : Nat) (hp : parseYMD s = .ok (y, m, d)) :
    calculate_statutory_claim amount_gbp s todayOrd =
      .ok { days_overdue := (max 0 (todayOrd - dateOrdinal y m d)).toNat
            statutory_interest_gbp :=
              ((pyRound (amount_gbp * (annual_rate / 365)
                * ((max 0 (todayOrd - dateOrdinal y m d) : Int) : ℚ) * 100) : ℚ)) / 100
            compensation_gbp :=
              if amount_gbp < 1000 then 40
              else if amount_gbp < 10000 then 70 else 100
            total_claim_gbp :=
              amount_gbp
                + ((pyRound (amount_gbp * (annual_rate / 365)
                    * ((max 0 (todayOrd - dateOrdinal y m d) : Int) : ℚ) * 100) : ℚ)) / 100
                + (if amount_gbp < 1000 then 40
                   else if amount_gbp < 10000 then 70 else 100) } := by
  simp [calculate_statutory_claim, hp]

example :
    (calculate_statutory_claim 5000 "2025-01-01" (739252 + 40)).map
      ClaimResult.statutory_interest_gbp = .ok (6986 / 100) := by
  rw [calculate_eq 5000 "2025-01-01" (739252 + 40) 2025 1 1 (by decide)]
  have hd : dateOrdinal 2025 1 1 = 739252 := by decide
  rw [hd]
  have h40 : (max 0 (739252 + 40 - 739252) : Int) = 40 := by decide
  rw [h40]
  have hq : (5000 : ℚ) * (annual_rate / 365) * ((40 : Int) : ℚ) * 100
      = 510000 / 73 := by apply Rat.ext <;> with_unfolding_all decide
  rw [hq]
  simp only [Except.map]
  congr 1
  apply Rat.ext <;> with_unfolding_all decide

theorem pyRound_zero : pyRound 0 = 0 := by with_unfolding_all decide

theorem pyRound_nonneg (q : ℚ) (hq : 0 ≤ q) : 0 ≤ pyRound q := by
  have hnum : 0 ≤ q.num := Rat.num_nonneg.mpr hq
  have hden : (0 : Int) ≤ (q.den : Int) := Int.ofNat_nonneg _
  have hf : 0 ≤ q.num / (q.den : Int) := Int.ediv_nonneg hnum hden
  unfold pyRound
  dsimp only
  split_ifs <;> omega

/-- C1: for every principal `p` and parsed due date, the statutory interest
returned by `calculate_statutory_claim` equals
`round2(p * (annual_rate / 365) * days_overdue)` with
`days_overdue = max 0 (reference - due)` in whole days and rounding at the
cent level (`round2 x = pyRound (x * 100) / 100`); when the due date is not
before the reference date the interest is `0`; and `p = 5000` with a due date
40 days before the reference date yields `69.86`. -/
theorem interest_matches_statutory_formula :
    (∀ (p : ℚ) (s : String) (t : Int) (y m d : Nat),
        parseYMD s = .ok (y, m, d) →
          (calculate_statutory_claim p s t).map ClaimResult.statutory_interest_gbp
              = .ok ((pyRound (p * (annual_rate / 365)
                  * ((max 0 (t - dateOrdinal y m d) : Int) : ℚ) * 100) : ℚ) / 100)
            ∧ (t ≤ dateOrdinal y m d →
                (calculate_statutory_claim p s t).map ClaimResult.statutory_interest_gbp
                  = .ok 0))
    ∧ (calculate_statutory_claim 5000 "2025-01-01" (dateOrdinal 2025 1 1 + 40)).map
        ClaimResult.statutory_interest_gbp = .ok (6986 / 100) := by
  constructor
  · intro p s t y m d hp
    constructor
    · rw [calculate_eq p s t y m d hp]; rfl
    · intro ht
      rw [calculate_eq p s t y m d hp]
      have h0 : (max 0 (t - dateOrdinal y m d) : Int) = 0 :=
        max_eq_left (by omega)
      rw [h0]
      simp [Except.map, pyRound_zero]
  · have hd : dateOrdinal 2025 1 1 = 739252 := by decide
    rw [hd, calculate_eq 5000 "2025-01-01" (739252 + 40) 2025 1 1 (by decide), hd]
    have h40 : (max 0 (739252 + 40 - 739252) : Int) = 40 := by decide
    rw [h40]
    have hq : (5000 : ℚ) * (annual_rate / 365) * ((40 : Int) : ℚ) * 100
        = 510000 / 73 := by apply Rat.ext <;> with_unfolding_all decide
    rw [hq]
    simp only [Except.map]
    congr 1
    apply Rat.ext <;> with_unfolding_all decide

theorem interest_matches_statutory_formula_witness :
    (calculate_statutory_claim 100 "2030-06-15" (dateOrdinal 2030 6 15)).map
      ClaimResult.statutory_interest_gbp = .ok 0 :=
  (interest_matches_statutory_formula.1 100 "2030-06-15" (dateOrdinal 2030 6 15)
    2030 6 15 (by decide)).2 le_rfl

/-- C2: the fixed compensation returned by `calculate_statutory_claim` is the
step function `p < 1000 → 40`, `1000 ≤ p < 10000 → 70`, `10000 ≤ p → 100`; in
particular `999.99 → 40`, `1000 → 70`, `9999.99 → 70`, `10000 → 100`. -/
theorem compensation_step_function :
    (∀ (p : ℚ) (s : String) (t : Int) (y m d : Nat),
        parseYMD s = .ok (y, m, d) →
          (calculate_statutory_claim p s t).map ClaimResult.compensation_gbp
            = .ok (if p < 1000 then 40 else if p < 10000 then 70 else 100))
    ∧ (calculate_statutory_claim (99999 / 100) "2025-01-01" 739252).map
        ClaimResult.compensation_gbp = .ok 40
    ∧ (calculate_statutory_claim 1000 "2025-01-01" 739252).map
        ClaimResult.compensation_gbp = .ok 70
    ∧ (calculate_statutory_claim (999999 / 100) "2025-01-01" 739252).map
        ClaimResult.compensation_gbp = .ok 70
    ∧ (calculate_statutory_claim 10000 "2025-01-01" 739252).map
        ClaimResult.compensation_gbp = .ok 100 := by
  refine ⟨fun p s t y m d hp => ?_, ?_, ?_, ?_, ?_⟩
  · rw [calculate_eq p s t y m d hp]; rfl
  all_goals
    rw [calculate_eq _ _ _ 2025 1 1 (by decide)]
    simp only [Except.map]
    norm_num

theorem compensation_step_function_witness :
    (calculate_statutory_claim 5 "2025-01-01" 739252).map ClaimResult.compensation_gbp
      = .ok (if (5 : ℚ) < 1000 then 40 else if (5 : ℚ) < 10000 then 70 else 100) :=
  compensation_step_function.1 5 "2025-01-01" 739252 2025 1 1 (by decide)

/-- C3: for `p ≥ 0` and a well-formed due date, the total returned by
`calculate_statutory_claim` equals `p + interest + compensation` exactly, all
monetary values are non-negative, the interest is a whole number of cents, and
a principal that is a whole number of cents yields a total that is a whole
number of cents (no rounding drift beyond 2 decimal places). -/
theorem total_is_exact_sum :
    ∀ (p : ℚ) (s : String) (t : Int) (r : ClaimResult),
      0 ≤ p → calculate_statutory_claim p s t = .ok r →
      r.total_claim_gbp = p + r.statutory_interest_gbp + r.compensation_gbp
        ∧ 0 ≤ r.statutory_interest_gbp ∧ 0 ≤ r.compensation_gbp
        ∧ 0 ≤ r.total_claim_gbp
        ∧ (∃ n : Int, r.statutory_interest_gbp * 100 = (n : ℚ))
        ∧ (∀ k : Int, p * 100 = (k : ℚ) →
            ∃ n : Int, r.total_claim_gbp * 100 = (n : ℚ)) := by
  intro p s t r hp hr
  cases hparse : parseYMD s with
  | error msg => simp [calculate_statutory_claim, hparse] at hr
  | ok ymd =>
    obtain ⟨y, m, d⟩ := ymd
    rw [calculate_eq p s t y m d hparse] at hr
    have hrec := (Except.ok.injEq _ _ ).mp hr
    subst hrec
    have hq : 0 ≤ p * (annual_rate / 365)
        * ((max 0 (t - dateOrdinal y m d) : Int) : ℚ) * 100 := by
      have h1 : (0 : ℚ) ≤ annual_rate / 365 := by norm_num [annual_rate]
      have h2 : (0 : ℚ) ≤ ((max 0 (t - dateOrdinal y m d) : Int) : ℚ) := by
        exact_mod_cast le_max_left (0 : Int) _
      exact mul_nonneg (mul_nonneg (mul_nonneg hp h1) h2) (by norm_num)
    have hIint : (0 : Int) ≤ pyRound (p * (annual_rate / 365)
        * ((max 0 (t - dateOrdinal y m d) : Int) : ℚ) * 100) := pyRound_nonneg _ hq
    have hI : 0 ≤ ((pyRound (p * (annual_rate / 365)
        * ((max 0 (t - dateOrdinal y m d) : Int) : ℚ) * 100) : Int) : ℚ) / 100 := by
      have : (0 : ℚ) ≤ ((pyRound (p * (annual_rate / 365)
          * ((max 0 (t - dateOrdinal y m d) : Int) : ℚ) * 100) : Int) : ℚ) := by
        exact_mod_cast hIint
      exact div_nonneg this (by norm_num)
    have hC : (0 : ℚ) ≤ (if p < 1000 then (40 : ℚ)
        else if p < 10000 then 70 else 100) := by
      split_ifs <;> norm_num
    have hC100 : ∃ cn : Int, (if p < 1000 then (40 : ℚ)
        else if p < 10000 then 70 else 100) * 100 = (cn : ℚ) := by
      split_ifs with h1 h2
      · exact ⟨4000, by norm_num⟩
      · exact ⟨7000, by norm_num⟩
      · exact ⟨10000, by norm_num⟩
    have hI100 : ((pyRound (p * (annual_rate / 365)
        * ((max 0 (t - dateOrdinal y m d) : Int) : ℚ) * 100) : Int) : ℚ) / 100 * 100
        = ((pyRound (p * (annual_rate / 365)
            * ((max 0 (t - dateOrdinal y m d) : Int) : ℚ) * 100) : Int) : ℚ) :=
      div_mul_cancel₀ _ (by norm_num)
    refine ⟨rfl, hI, hC, add_nonneg (add_nonneg hp hI) hC, ⟨_, hI100⟩, ?_⟩
    intro k hk
    obtain ⟨cn, hcn⟩ := hC100
    refine ⟨k + pyRound (p * (annual_rate / 365)
        * ((max 0 (t - dateOrdinal y m d) : Int) : ℚ) * 100) + cn, ?_⟩
    push_cast
    linear_combination hk + hI100 + hcn

theorem total_is_exact_sum_witness :
    (0 : ℚ) ≤ 5000
    ∧ calculate_statutory_claim 5000 "2025-01-01" 739252 = .ok ⟨0, 0, 70, 5070⟩
    ∧ ((5070 : ℚ) = 5000 + 0 + 70
        ∧ (0 : ℚ) ≤ 0 ∧ (0 : ℚ) ≤ 70 ∧ (0 : ℚ) ≤ 5070
        ∧ (∃ n : Int, (0 : ℚ) * 100 = (n : ℚ))
        ∧ (∀ k : Int, (5000 : ℚ) * 100 = (k : ℚ) →
            ∃ n : Int, (5070 : ℚ) * 100 = (n : ℚ))) := by
  have hcalc : calculate_statutory_claim 5000 "2025-01-01" 739252
      = .ok ⟨0, 0, 70, 5070⟩ := by
    rw [calculate_eq 5000 "2025-01-01" 739252 2025 1 1 (by decide)]
    have hd : dateOrdinal 2025 1 1 = 739252 := by decide
    rw [hd]
    norm_num [pyRound_zero]
  exact ⟨by norm_num, hcalc,
    total_is_exact_sum 5000 "2025-01-01" 739252 ⟨0, 0, 70, 5070⟩ (by norm_num) hcalc⟩

/-- Unfolding lemma for the accepted path of `handle_intake`: both gates pass,
the due date parses, and rendering succeeds. -/
theorem handle_intake_accepted (env : Env) (s : IntakeSubmission) (y m d : Nat)
    (h1 : s.debtor_type = "business") (h2 : s.dpa_accepted = true)
    (hp : parseYMD s.due_date = .ok (y, m, d)) (h4 : env.renderOk = true) :
    handle_intake env s =
      (.ok { status := "success"
             case_id := generate_case_id env s.client_email
             client_email := s.client_email
             amount_owed_gbp := s.amount_owed_gbp
             statutory_interest_gbp :=
               ((pyRound (s.amount_owed_gbp * (annual_rate / 365)
                 * ((max 0 (env.todayOrd - dateOrdinal y m d) : Int) : ℚ) * 100) : Int) : ℚ) / 100
             compensation_gbp :=
               if s.amount_owed_gbp < 1000 then 40
               else if s.amount_owed_gbp < 10000 then 70 else 100
             total_claim_gbp :=
               s.amount_owed_gbp
                 + ((pyRound (s.amount_owed_gbp * (annual_rate / 365)
                     * ((max 0 (env.todayOrd - dateOrdinal y m d) : Int) : ℚ) * 100) : Int) : ℚ) / 100
                 + (if s.amount_owed_gbp < 1000 then 40
                    else if s.amount_owed_gbp < 10000 then 70 else 100)
             lba_generated := true
             email_sent := send_email_via_sendgrid env.transport
             message := "Case " ++ generate_case_id env s.client_email
               ++ " created successfully. LBA prepared and email sent." },
       [.writeDoc ("/tmp/debtclear_pdfs/" ++ generate_case_id env s.client_email ++ ".txt"),
        .sendEmail s.client_email]) := by
  simp only [handle_intake, h1, h2, h4,
    calculate_eq s.amount_owed_gbp s.due_date env.todayOrd y m d hp]
  simp

/-- The `case_id` field of any successful response is the generated case id
for the submission's client email. -/
theorem case_id_of_ok (env : Env) (s : IntakeSubmission) (r : IntakeResponse)
    (h : (handle_intake env s).1 = .ok r) :
    r.case_id = generate_case_id env s.client_email := by
  unfold handle_intake at h
  split at h
  · simp at h
  · split at h
    · simp at h
    · split at h
      · simp at h
      · split at h
        · simp at h
        · simp only [Except.ok.injEq] at h
          rw [← h]

/-- C4 (intent check): the source calculator has only two explicit parameters
and reads `datetime.now()` internally; evaluating it at two different ambient
clock readings with identical explicit inputs yields different results, so it
is not a deterministic function of its explicit inputs alone. -/
theorem calculator_reads_global_clock :
    calculate_statutory_claim 5000 "2025-01-01" (dateOrdinal 2025 1 1)
      ≠ calculate_statutory_claim 5000 "2025-01-01" (dateOrdinal 2025 1 1 + 40) := by
  have hd : dateOrdinal 2025 1 1 = 739252 := by decide
  rw [hd]
  rw [calculate_eq 5000 "2025-01-01" 739252 2025 1 1 (by decide)]
  rw [calculate_eq 5000 "2025-01-01" (739252 + 40) 2025 1 1 (by decide)]
  rw [hd]
  intro h
  have h1 := ClaimResult.mk.inj (Except.ok.inj h)
  exact absurd h1.1 (by decide)

/-- C5: a submission whose debtor type is not `business` is rejected with the
gate-1 `HTTPException` (status 422, a client error) and the request performs
no side effect: no claim computation, no document write, no email. -/
theorem gate1_rejects_non_business :
    ∀ (env : Env) (s : IntakeSubmission), s.debtor_type ≠ "business" →
      handle_intake env s
        = (.error (.http 422 "DebtClear processes B2B (business-to-business) debt only. Consumer debt uses a different legal framework."), []) := by
  intro env s h
  unfold handle_intake
  rw [if_pos h]

theorem gate1_rejects_non_business_witness :
    handle_intake envA subIndividual
      = (.error (.http 422 "DebtClear processes B2B (business-to-business) debt only. Consumer debt uses a different legal framework."), []) :=
  gate1_rejects_non_business envA subIndividual (by decide)

/-- C6: a submission without data-processing consent is rejected regardless of
debtor type, with the `ConsentRequired` gate error (status 422) when the
debtor type is `business`, and the request performs no side effect: nothing is
written and nothing is sent. -/
theorem gate2_requires_consent :
    ∀ (env : Env) (s : IntakeSubmission), s.dpa_accepted = false →
      ((handle_intake env s).2 = [] ∧ ∃ e, (handle_intake env s).1 = .error e)
      ∧ (s.debtor_type = "business" →
          handle_intake env s
            = (.error (.http 422 "Data Processing Agreement must be accepted to proceed."), [])) := by
  intro env s h
  by_cases hb : s.debtor_type = "business"
  · have hmain : handle_intake env s
        = (.error (.http 422 "Data Processing Agreement must be accepted to proceed."), []) := by
      unfold handle_intake
      rw [if_neg (by simp [hb]), if_pos h]
    exact ⟨⟨by rw [hmain], ⟨_, by rw [hmain]⟩⟩, fun _ => hmain⟩
  · have hmain : handle_intake env s
        = (.error (.http 422 "DebtClear processes B2B (business-to-business) debt only. Consumer debt uses a different legal framework."), []) := by
      unfold handle_intake
      rw [if_pos hb]
    exact ⟨⟨by rw [hmain], ⟨_, by rw [hmain]⟩⟩, fun hc => absurd hc hb⟩

theorem gate2_requires_consent_witness :
    ((handle_intake envA subNoConsent).2 = []
      ∧ ∃ e, (handle_intake envA subNoConsent).1 = .error e)
    ∧ (subNoConsent.debtor_type = "business" →
        handle_intake envA subNoConsent
          = (.error (.http 422 "Data Processing Agreement must be accepted to proceed."), [])) :=
  gate2_requires_consent envA subNoConsent rfl

/-- C7: the notifier never raises (a raised transport exception becomes the
boolean `false`), and an accepted submission whose notification fails is still
reported as a success, with only the `email_sent` field showing the failure. -/
theorem email_failure_nonfatal :
    (∀ (env : Env) (s : IntakeSubmission) (y m d : Nat),
        s.debtor_type = "business" → s.dpa_accepted = true →
        parseYMD s.due_date = .ok (y, m, d) → env.renderOk = true →
        send_email_via_sendgrid env.transport = false →
          (handle_intake env s).1.map IntakeResponse.status = .ok "success"
          ∧ (handle_intake env s).1.map IntakeResponse.email_sent = .ok false)
    ∧ send_email_via_sendgrid EmailTransport.raised = false := by
  refine ⟨fun env s y m d h1 h2 hp h4 h5 => ?_, rfl⟩
  rw [handle_intake_accepted env s y m d h1 h2 hp h4]
  exact ⟨rfl, by simp [Except.map, h5]⟩

theorem email_failure_nonfatal_witness :
    (handle_intake envR subBusiness).1.map IntakeResponse.status = .ok "success"
    ∧ (handle_intake envR subBusiness).1.map IntakeResponse.email_sent = .ok false :=
  email_failure_nonfatal.1 envR subBusiness 2024 12 1 rfl rfl (by decide) rfl rfl

/-- C8 fails on the code: two distinct accepted submissions on the same day
with the same client email receive the same case identifier. -/
theorem case_id_collision :
    subBusiness ≠ subOtherDebtor
    ∧ subBusiness.client_email = subOtherDebtor.client_email
    ∧ (handle_intake envA subBusiness).1.map IntakeResponse.case_id
        = .ok "DC-20260101-0015"
    ∧ (handle_intake envA subOtherDebtor).1.map IntakeResponse.case_id
        = .ok "DC-20260101-0015" := by
  refine ⟨fun h => absurd (congrArg IntakeSubmission.debtor_name h) (by decide),
    rfl, ?_, ?_⟩ <;>
  · rw [handle_intake_accepted envA _ 2024 12 1 rfl rfl (by decide) rfl]
    simp only [Except.map]
    congr 1

/-- C8 (amended): the case identifier of a successful response is a function
of the ambient day and the client email alone, so it is stable, and any two
accepted submissions with the same client email processed in the same ambient
state (same day, same process) receive identical identifiers. -/
theorem case_id_determined_by_day_and_email :
    ∀ (env : Env) (s1 s2 : IntakeSubmission),
      s1.client_email = s2.client_email →
      succeeded (handle_intake env s1).1 = true →
      succeeded (handle_intake env s2).1 = true →
      (handle_intake env s1).1.map IntakeResponse.case_id
        = (handle_intake env s2).1.map IntakeResponse.case_id := by
  intro env s1 s2 he h1 h2
  obtain ⟨r1, hr1⟩ : ∃ r, (handle_intake env s1).1 = .ok r := by
    cases hc : (handle_intake env s1).1 with
    | error e => rw [hc] at h1; simp [succeeded] at h1
    | ok r => exact ⟨r, rfl⟩
  obtain ⟨r2, hr2⟩ : ∃ r, (handle_intake env s2).1 = .ok r := by
    cases hc : (handle_intake env s2).1 with
    | error e => rw [hc] at h2; simp [succeeded] at h2
    | ok r => exact ⟨r, rfl⟩
  rw [hr1, hr2]
  simp only [Except.map]
  rw [case_id_of_ok env s1 r1 hr1, case_id_of_ok env s2 r2 hr2, he]

theorem case_id_determined_by_day_and_email_witness :
    (handle_intake envA subBusiness).1.map IntakeResponse.case_id
      = (handle_intake envA subOtherDebtor).1.map IntakeResponse.case_id :=
  case_id_determined_by_day_and_email envA subBusiness subOtherDebtor rfl
    (by rw [handle_intake_accepted envA subBusiness 2024 12 1 rfl rfl (by decide) rfl]; rfl)
    (by rw [handle_intake_accepted envA subOtherDebtor 2024 12 1 rfl rfl (by decide) rfl]; rfl)

/-- C9 fails on the code: the error raised on a malformed due date is the
`strptime` `ValueError`, whose message names the expected format but not the
offending field (`due_date` does not occur in it), and it propagates uncaught. -/
theorem malformed_date_error_lacks_field_name :
    calculate_statutory_claim 5000 "banana" 739252
      = .error (.valueError "time data \x27banana\x27 does not match format \x27%Y-%m-%d\x27")
    ∧ strHasSub "time data \x27banana\x27 does not match format \x27%Y-%m-%d\x27"
        "due_date" = false := by
  constructor
  · unfold calculate_statutory_claim
    rw [show parseYMD "banana"
        = .error "time data \x27banana\x27 does not match format \x27%Y-%m-%d\x27"
      from by decide]
  · decide

/-- C9 (amended): the calculator fails exactly on due-date strings that do not
parse as calendar dates, and then the failure is the uncaught `strptime`
`ValueError` carrying the parser's message (not a field-naming validation
error); every well-formed due date succeeds for every principal. -/
theorem calc_error_iff_malformed_date :
    ∀ (p : ℚ) (s : String) (t : Int),
      ((∃ r, calculate_statutory_claim p s t = .ok r) ↔ (∃ v, parseYMD s = .ok v))
      ∧ (∀ msg, parseYMD s = .error msg →
          calculate_statutory_claim p s t = .error (.valueError msg)) := by
  intro p s t
  cases hparse : parseYMD s with
  | error msg =>
    refine ⟨⟨fun ⟨r, hr⟩ => ?_, fun ⟨v, hv⟩ => ?_⟩, fun m hm => ?_⟩
    · simp [calculate_statutory_claim, hparse] at hr
    · simp at hv
    · have := Except.error.inj hm
      subst this
      unfold calculate_statutory_claim
      rw [hparse]
  | ok v =>
    obtain ⟨y, m, d⟩ := v
    refine ⟨⟨fun _ => ⟨_, rfl⟩, fun _ => ⟨_, calculate_eq p s t y m d hparse⟩⟩,
      fun msg hmsg => ?_⟩
    simp at hmsg

theorem calc_error_iff_malformed_date_witness :
    calculate_statutory_claim 42 "2025-13-01" 0
      = .error (.valueError
          "time data \x272025-13-01\x27 does not match format \x27%Y-%m-%d\x27") :=
  (calc_error_iff_malformed_date 42 "2025-13-01" 0).2 _ (by decide)

/-- C10: every accepted submission yields a response with
`lba_generated = true` and the message `"Case <id> created successfully. LBA
prepared and email sent."`, regardless of whether the email actually went out;
only `email_sent` reflects the notification outcome. -/
theorem success_response_always_claims_email_sent :
    ∀ (env : Env) (s : IntakeSubmission) (y m d : Nat),
      s.debtor_type = "business" → s.dpa_accepted = true →
      parseYMD s.due_date = .ok (y, m, d) → env.renderOk = true →
        (handle_intake env s).1.map IntakeResponse.lba_generated = .ok true
        ∧ (handle_intake env s).1.map IntakeResponse.message
            = .ok ("Case " ++ generate_case_id env s.client_email
                ++ " created successfully. LBA prepared and email sent.")
        ∧ (handle_intake env s).1.map IntakeResponse.email_sent
            = .ok (send_email_via_sendgrid env.transport) := by
  intro env s y m d h1 h2 hp h4
  rw [handle_intake_accepted env s y m d h1 h2 hp h4]
  exact ⟨rfl, rfl, rfl⟩

theorem success_response_always_claims_email_sent_witness :
    (handle_intake envR subBusiness).1.map IntakeResponse.lba_generated = .ok true
    ∧ (handle_intake envR subBusiness).1.map IntakeResponse.message
        = .ok ("Case " ++ generate_case_id envR subBusiness.client_email
            ++ " created successfully. LBA prepared and email sent.")
    ∧ (handle_intake envR subBusiness).1.map IntakeResponse.email_sent
        = .ok (send_email_via_sendgrid envR.transport) :=
  success_response_always_claims_email_sent envR subBusiness 2024 12 1 rfl rfl
    (by decide) rfl

end DebtClear
